import Mathlib

/-!
Verification of the k8sh virtual-filesystem navigation engine.

This file is a shallow embedding of the navigation core of k8sh
(k8sh/kubernetes.py and k8sh/shell.py): the resource-node tree with its
path-fragment and path computation, single-step cd resolution, the
navigator-level cd loop, the multi-segment ls resolution with its
query-cost counter, the lazy children caches of Cluster, Namespace and
Pod, the delete action, and refresh.

Strings are embedded as lists of characters so that all string
operations of the source (startswith, split, replace, endswith) are
plain structural functions.
-/

set_option autoImplicit false

/-- Strings of the Python source, embedded as character lists. -/
abbrev Str := List Char

/-- The kind tags of the node classes.  The base KubeObject created
before any use command has the empty kind string; it is embedded as
the sentinel kind. -/
inductive Kind where
  | sentinel
  | cluster
  | ns
  | pod
  | service
  | container
deriving DecidableEq, Repr

/-- The Python kind strings: KubeObject.kind of each subclass. -/
def kindStr : Kind → Str
  | .sentinel => []
  | .cluster => "cluster".data
  | .ns => "namespace".data
  | .pod => "pod".data
  | .service => "service".data
  | .container => "container".data

/-- A fully materialized resource tree: one node of kubernetes.py with
its name, kind and (already fetched) children. -/
inductive KTree where
  | node (name : Str) (kind : Kind) (children : List KTree)

/-- The name attribute of a node. -/
def KTree.name : KTree → Str
  | .node n _ _ => n

/-- The kind attribute of a node. -/
def KTree.kind : KTree → Kind
  | .node _ k _ => k

/-- The child subtrees of a node. -/
def KTree.children : KTree → List KTree
  | .node _ _ cs => cs

/-- KubeObject.path_fragment and its overrides: the cluster contributes
the fragment "/", a pod contributes "pod.name", a service contributes
"service.name", and every other kind contributes its bare name. -/
def KTree.path_fragment (t : KTree) : Str :=
  match t.kind with
  | .cluster => "/".data
  | .pod => "pod.".data ++ t.name
  | .service => "service.".data ++ t.name
  | _ => t.name

/-- A node of the hierarchy together with its chain of parents: self is
the subtree rooted at the node, ancestors lists the parent, the
grandparent, and so on up to the root.  This embeds the parent
back-reference of kubernetes.py. -/
structure Node where
  self : KTree
  ancestors : List KTree

/-- The children of a node, as nodes (each child records self as its
first ancestor, embedding parent = self of the source). -/
def Node.children (n : Node) : List Node :=
  n.self.children.map (fun c => ⟨c, n.self :: n.ancestors⟩)

/-- The parent attribute: none at the root of the hierarchy. -/
def Node.parent (n : Node) : Option Node :=
  match n.ancestors with
  | [] => none
  | p :: rest => some ⟨p, rest⟩

/-- The loop of KubeObject.root: follow parent pointers while a parent
exists. -/
def rootAux : KTree → List KTree → Node
  | t, [] => ⟨t, []⟩
  | _, p :: rest => rootAux p rest

/-- KubeObject.root: the root element of the hierarchy. -/
def Node.root (n : Node) : Node :=
  rootAux n.self n.ancestors

/-- One pass of Python str.replace(pat, "") (removal of every
non-overlapping occurrence of pat, scanning left to right), written
with explicit fuel so that it is structurally recursive.  Every
recursive call strictly shortens the scanned list, so fuel equal to
the length of the input makes the fuel bound unreachable. -/
def replaceAllAux (pat : Str) : Nat → Str → Str
  | _, [] => []
  | 0, s => s
  | fuel + 1, c :: rest =>
    if !pat.isEmpty && pat.isPrefixOf (c :: rest) then
      replaceAllAux pat fuel (List.drop (pat.length - 1) rest)
    else
      c :: replaceAllAux pat fuel rest

/-- Python val.replace(pat, ""): remove every non-overlapping
occurrence of pat from val, scanning left to right. -/
def replaceAll (pat : Str) (s : Str) : Str :=
  replaceAllAux pat s.length s

/-- The child scan of KubeObject.cd: walk the children in order; an
exact fragment match returns the child with empty residual; otherwise
a child whose fragment followed by "/" is a prefix of the input
returns the child with residual val.replace(fragment ++ "/", "").
No match is the could-not-find error. -/
def cdScan (val : Str) (selfFrag : Str) : List Node → Except Str (Node × Str)
  | [] => .error ("Could not find ".data ++ val ++ " in ".data ++ selfFrag)
  | el :: rest =>
    let frag := el.self.path_fragment
    if val = frag then
      .ok (el, [])
    else if (frag ++ "/".data).isPrefixOf val then
      .ok (el, replaceAll (frag ++ "/".data) val)
    else
      cdScan val selfFrag rest

/-- KubeObject.cd: one resolution step.  An absolute path jumps to the
root with the leading slash stripped; ".." returns the parent (or self
at the root); "../rest" returns the parent with residual rest (error
at the root); otherwise the children are scanned. -/
def KubeObject.cd (n : Node) (val : Str) : Except Str (Node × Str) :=
  if ("/".data).isPrefixOf val then
    .ok (n.root, val.drop 1)
  else if val = "..".data then
    match n.parent with
    | none => .ok (n, [])
    | some p => .ok (p, [])
  else if ("../".data).isPrefixOf val then
    match n.parent with
    | none => .error "Could not change directory beyond root".data
    | some p => .ok (p, val.drop 3)
  else
    cdScan val n.self.path_fragment n.children

/-- The binary step of posixpath.join: an absolute second component
replaces the accumulated path; otherwise the components are joined,
inserting "/" unless the accumulated path is empty or already ends
with "/". -/
def osJoin (a b : Str) : Str :=
  if ("/".data).isPrefixOf b then b
  else if a.isEmpty || (a.getLast? == some '/') then a ++ b
  else a ++ "/".data ++ b

/-- The variadic os.path.join: a left fold of the binary join, with
the first component as the accumulator seed. -/
def osJoinList : List Str → Str
  | [] => []
  | f :: fs => fs.foldl osJoin f

/-- KubeObject.path: collect the fragments from self up to the root,
reverse them, and feed them through os.path.join (a left fold of the
binary join over the root-first fragment list). -/
def KubeObject.path (n : Node) : Str :=
  osJoinList (((n.self :: n.ancestors).map KTree.path_fragment).reverse)

/-- glob.has_magic: the pattern contains one of the wildcard
metacharacters star, question mark or opening bracket. -/
def has_magic (s : Str) : Bool :=
  s.any (fun c => c = '*' || c = '?' || c = '[')

/-- Split a character list at the first closing bracket, returning the
part before it and the part after it; none when no closing bracket
exists. -/
def findClose : Str → Option (Str × Str)
  | [] => none
  | ']' :: rest => some ([], rest)
  | c :: rest =>
    match findClose rest with
    | none => none
    | some (a, b) => some (c :: a, b)

/-- Parse a bracket character class the way fnmatch.translate scans it:
after the opening bracket an optional negation mark is consumed, a
closing bracket appearing first is a literal member, and the class runs
to the next closing bracket; none when the class is unterminated (the
opening bracket is then a literal). -/
def parseClass (ps : Str) : Option (Bool × Str × Str) :=
  let (neg, ps1) :=
    match ps with
    | '!' :: rest => (true, rest)
    | _ => (false, ps)
  match ps1 with
  | ']' :: rest2 =>
    match findClose rest2 with
    | none => none
    | some (a, b) => some (neg, ']' :: a, b)
  | _ =>
    match findClose ps1 with
    | none => none
    | some (a, b) => some (neg, a, b)

/-- Membership of a character in the items of a character class, with
dash ranges as in the regular expression fnmatch.translate builds. -/
def matchClass : Str → Char → Bool
  | a :: '-' :: b :: rest, c => (decide (a ≤ c) && decide (c ≤ b)) || matchClass rest c
  | a :: rest, c => (a = c) || matchClass rest c
  | [], _ => false

/-- Shell-glob matching as fnmatch performs it (star, question mark,
bracket classes, everything else literal), written with explicit fuel
so that it is structurally recursive; every recursive call strictly
shrinks pattern length plus string length, so the fuel supplied by
fnmatch below is never exhausted. -/
def globAux : Nat → Str → Str → Bool
  | 0, _, _ => false
  | fuel + 1, pat, s =>
    match pat with
    | [] => s.isEmpty
    | '*' :: ps =>
      globAux fuel ps s ||
        (match s with
         | [] => false
         | _ :: s2 => globAux fuel ('*' :: ps) s2)
    | '?' :: ps =>
      (match s with
       | [] => false
       | _ :: s2 => globAux fuel ps s2)
    | '[' :: ps =>
      (match parseClass ps with
       | none =>
         match s with
         | [] => false
         | c :: s2 => ('[' = c) && globAux fuel ps s2
       | some (neg, items, rest) =>
         match s with
         | [] => false
         | c :: s2 =>
           (if neg then !(matchClass items c) else matchClass items c) && globAux fuel rest s2)
    | p :: ps =>
      (match s with
       | [] => false
       | c :: s2 => (p = c) && globAux fuel ps s2)

/-- fnmatch.fnmatch(s, pat) on a case-preserving platform. -/
def fnmatch (s pat : Str) : Bool :=
  globAux (pat.length + s.length + 1) pat s

/-- KubeObject.match: exact comparison of the path fragment when the
pattern has no wildcard characters, shell-glob matching otherwise. -/
def Node.matchGlob (n : Node) (maybe_glob : Str) : Bool :=
  if !(has_magic maybe_glob) then
    n.self.path_fragment == maybe_glob
  else
    fnmatch n.self.path_fragment maybe_glob

/-- Python str.split on a one-character separator: every occurrence
separates, and empty pieces are kept. -/
def splitOnChar (sep : Char) : Str → List Str
  | [] => [[]]
  | x :: xs =>
    if x = sep then
      [] :: splitOnChar sep xs
    else
      match splitOnChar sep xs with
      | [] => [[x]]
      | y :: ys => (x :: y) :: ys

/-- shell.py MAX_QUERY_LENGTH: the ceiling on queries performed by one
command. -/
def MAX_QUERY_LENGTH : Nat := 15

/-- The matches one segment of the ls loop produces from the current
candidate set: an empty segment expands to all children, ".." maps
every candidate to its parent when it has one, and any other segment
filters the children of every candidate by KubeObject.match. -/
def lsSegment (ptr : List Node) (part : Str) : List Node :=
  if part = [] then
    (ptr.map Node.children).flatten
  else if part = "..".data then
    ptr.filterMap Node.parent
  else
    (ptr.map (fun obj => obj.children.filter (fun c => c.matchGlob part))).flatten

/-- How much one segment adds to queries_performed: nothing for the
empty segment and "..", one per candidate node otherwise. -/
def lsCost (ptr : List Node) (part : Str) : Nat :=
  if part = [] then 0
  else if part = "..".data then 0
  else ptr.length

/-- The segment loop of KubeCmd.ls: per segment compute the matches
and the new query count; an empty match set ends the resolution with
an empty result, a query count above the limit ends it with an empty
result (after the warning), and otherwise the matches become the new
candidate set. -/
def lsLoop (limit : Nat) : List Node → Nat → List Str → List Node
  | ptr, _, [] => ptr
  | ptr, queries_performed, part :: rest =>
    let found := lsSegment ptr part
    let q := queries_performed + lsCost ptr part
    if found.isEmpty then []
    else if limit < q then []
    else lsLoop limit found q rest

/-- The navigator state: KubeCmd holds the current node. -/
structure KubeCmd where
  current : Node

/-- KubeCmd.ls with the query ceiling as a parameter: the context check
of _check_current first, the bare children for an empty argument, and
otherwise the segment loop over the slash-split argument starting from
the singleton candidate set, with queries_performed starting at 0. -/
def KubeCmd.lsWith (limit : Nat) (sh : KubeCmd) (arg : Str) : Except Str (List Node) :=
  if sh.current.self.kind = .sentinel then
    .error "Please select a cluster with \x27use\x27 first".data
  else if arg = [] then
    .ok sh.current.children
  else
    .ok (lsLoop limit [sh.current] 0 (splitOnChar '/' arg))

/-- KubeCmd.ls as shipped: the loop with the MAX_QUERY_LENGTH ceiling. -/
def KubeCmd.ls (sh : KubeCmd) (arg : Str) : Except Str (List Node) :=
  KubeCmd.lsWith MAX_QUERY_LENGTH sh arg

/-- The while loop of the navigator cd: feed the residual through
KubeObject.cd until it is empty, propagating errors.  Fuel makes the
recursion structural; each successful step strictly shortens the
residual, so fuel equal to the length of the path is never
exhausted. -/
def cdLoopAux : Nat → Node → Str → Except Str Node
  | _, n, [] => .ok n
  | 0, n, _ :: _ => .ok n
  | fuel + 1, n, c :: cs =>
    match KubeObject.cd n (c :: cs) with
    | .error e => .error e
    | .ok (n2, val2) => cdLoopAux fuel n2 val2

/-- The resolution loop of KubeCmd.cd on a non-empty path. -/
def KubeCmd.cdLoop (n : Node) (val : Str) : Except Str Node :=
  cdLoopAux val.length n val

/-- KubeCmd.cd: the context check of _check_current, the rewind to the
root on an empty path, and otherwise the resolution loop whose result
is assigned to current only after the whole loop has succeeded; on an
error the state is returned untouched. -/
def KubeCmd.cd (sh : KubeCmd) (val : Str) : KubeCmd × Except Str Unit :=
  if sh.current.self.kind = .sentinel then
    (sh, .error "Please select a cluster with \x27use\x27 first".data)
  else if val = [] then
    (⟨sh.current.root⟩, .ok ())
  else
    match KubeCmd.cdLoop sh.current val with
    | .error e => (sh, .error e)
    | .ok n => (⟨n⟩, .ok ())

/-- A full resolution of a path: a chain of successful KubeObject.cd
steps that consumes the whole input. -/
inductive Resolves : Node → Str → Node → Prop where
  | done (n : Node) : Resolves n [] n
  | step (n : Node) (val : Str) (n2 : Node) (val2 : Str) (m : Node) :
      KubeObject.cd n val = .ok (n2, val2) → Resolves n2 val2 m → Resolves n val m

/-- A child a Namespace builds while populating its cache: a Pod or a
Service constructed from one backend record name. -/
inductive NsChild where
  | pod (name : Str)
  | service (name : Str)
deriving DecidableEq, Repr

/-- Namespace.children as a state transformer over the cache cell
(Python self underscore children, none = not yet fetched).  The inputs
are the two backend responses (get pods, then get services, each a
list of metadata names or a raised domain error).  The result is the
new cache cell, the returned value or the propagated error, and the
number of backend queries issued.  Mirroring the source, the cache is
assigned the empty list before the first query, and pods are appended
before services are queried, so a failure leaves the partial list in
the cache. -/
def Namespace.children (podsResp svcsResp : Except Str (List Str))
    (st : Option (List NsChild)) :
    Option (List NsChild) × Except Str (List NsChild) × Nat :=
  match st with
  | some cs => (some cs, .ok cs, 0)
  | none =>
    match podsResp with
    | .error e => (some [], .error e, 1)
    | .ok pods =>
      let cs1 := pods.map NsChild.pod
      match svcsResp with
      | .error e => (some cs1, .error e, 2)
      | .ok svcs =>
        let cs := cs1 ++ svcs.map NsChild.service
        (some cs, .ok cs, 2)

/-- The parsed payload of the one pod query: the node name the pod is
scheduled on and its container statuses (name and containerID). -/
structure PodQueryData where
  nodeName : Str
  containerStatuses : List (Str × Str)
deriving DecidableEq, Repr

/-- A Container instance as Pod building its children creates it: the
status name, the ID with the docker scheme prefix removed, and the
remote host bound by set_remote. -/
structure ContainerRec where
  name : Str
  ID : Str
  remoteHost : Str
deriving DecidableEq, Repr

/-- The mutable fields of a Pod: the children cache and the hostname
cache, populated together by one combined query. -/
structure PodState where
  children : Option (List ContainerRec)
  hostname : Option Str
deriving DecidableEq, Repr

/-- Pod gather data: assign the empty list to the children cache, issue
the combined query, then store the hostname and the container children.
A raised error leaves the cache at the empty list and the hostname
untouched. -/
def Pod.gather_data (resp : Except Str PodQueryData) (st : PodState) :
    PodState × Except Str Unit :=
  match resp with
  | .error e => ({ children := some [], hostname := st.hostname }, .error e)
  | .ok d =>
    ({ children := some (d.containerStatuses.map
         (fun s => ⟨s.1, replaceAll "docker://".data s.2, d.nodeName⟩)),
       hostname := some d.nodeName }, .ok ())

/-- Pod.children: return the cache when present (zero queries),
otherwise run gather data (one query) and return the freshly stored
cache. -/
def Pod.children (resp : Except Str PodQueryData) (st : PodState) :
    PodState × Except Str (List ContainerRec) × Nat :=
  match st.children with
  | some cs => (st, .ok cs, 0)
  | none =>
    match Pod.gather_data resp st with
    | (st2, .error e) => (st2, .error e, 1)
    | (st2, .ok ()) => (st2, .ok (st2.children.getD []), 1)

/-- Cluster.children: return the cache when present (zero queries),
otherwise assign the empty list, issue the privileged namespace query,
and append one Namespace child per returned name.  A raised error
leaves the empty list in the cache. -/
def Cluster.children (resp : Except Str (List Str)) (st : Option (List Str)) :
    Option (List Str) × Except Str (List Str) × Nat :=
  match st with
  | some cs => (some cs, .ok cs, 0)
  | none =>
    match resp with
    | .error e => (some [], .error e, 1)
    | .ok names => (some names, .ok names, 1)

/-- The per-kind constant KubeObject.is_deletable: the base class sets
true, Cluster and Container override it with false. -/
def is_deletable : Kind → Bool
  | .cluster => false
  | .container => false
  | _ => true

/-- The captured result of one kubectl invocation. -/
structure CompletedProcess where
  returncode : Int
  stderr : Str
deriving DecidableEq, Repr

/-- KubeObject.delete: refuse with the not-deletable error before any
backend call when is_deletable is false for the kind; otherwise issue
the delete command as a privileged call and raise an error carrying
the captured stderr text exactly when the call exits non-zero.  The
second component records the issued backend call, if any, as the
command string paired with its privileged flag. -/
def KubeObject.delete (k : Kind) (name path : Str) (run : CompletedProcess) :
    Except Str Unit × Option (Str × Bool) :=
  if is_deletable k = false then
    (.error ("Objects of kind \x27".data ++ kindStr k ++ "\x27 cannot be deleted".data), none)
  else
    let call := some ("delete ".data ++ kindStr k ++ " ".data ++ name, true)
    if run.returncode ≠ 0 then
      (.error ("Could not remove ".data ++ path ++ ": ".data ++ run.stderr), call)
    else
      (.ok (), call)

/-- A resource tree with its mutable per-node caches: each node carries
its children cache cell (none = not fetched) and its hostname cache
(only a Pod ever populates it). -/
inductive MTree where
  | node (name : Str) (kind : Kind) (cache : Option (List MTree)) (hostname : Option Str)

/-- The kind of a cached-tree node. -/
def MTree.kind : MTree → Kind
  | .node _ k _ _ => k

/-- KubeObject.refresh dispatched on the node kind: Cluster and
Namespace clear the children cache, Pod clears the children cache and
the hostname cache, Container and Service do nothing, and the base
class (the sentinel placeholder) raises NotImplementedError. -/
def KubeObject.refresh : MTree → Except Str MTree
  | .node nm k cache h =>
    match k with
    | .container => .ok (.node nm .container cache h)
    | .service => .ok (.node nm .service cache h)
    | .pod => .ok (.node nm .pod none none)
    | .ns => .ok (.node nm .ns none h)
    | .cluster => .ok (.node nm .cluster none h)
    | .sentinel => .error "refresh() needs to be implemented.".data

/-- The guaranteed cleanup of do_rm: whatever happened, the finally
block refreshes the current node. -/
def do_rm_cleanup (current : MTree) : Except Str MTree :=
  KubeObject.refresh current

/-- A pod named x, used by the concrete scenarios below. -/
def podX : KTree := .node "x".data .pod []

/-- A namespace ns1 holding the pod x. -/
def ns1T : KTree := .node "ns1".data .ns [podX]

/-- A namespace ns2 holding the pod x. -/
def ns2T : KTree := .node "ns2".data .ns [podX]

/-- A cluster holding the two namespaces. -/
def clusterT : KTree := .node "minikube".data .cluster [ns1T, ns2T]

/-- The root node of the concrete scenario. -/
def demoRoot : Node := ⟨clusterT, []⟩

/-- The ns1 namespace as a node below the root. -/
def demoNs1 : Node := ⟨ns1T, [clusterT]⟩

/-- A navigator currently at the scenario root. -/
def demoSh : KubeCmd := ⟨demoRoot⟩

/-- A namespace named a, whose fragment reappears inside the path
a/a/x. -/
def aT : KTree := .node "a".data .ns []

/-- A cluster holding only the namespace a. -/
def c1ClusterT : KTree := .node "c".data .cluster [aT]

/-- The root of the namespace-a scenario. -/
def c1Root : Node := ⟨c1ClusterT, []⟩

/-- The namespace a as a node below its root. -/
def c1Child : Node := ⟨aT, [c1ClusterT]⟩

/-- A concrete pod query payload: hostname and one container status. -/
def podData0 : PodQueryData := ⟨"host1".data, [("c1".data, "docker://123".data)]⟩

/-- Removal never lengthens its input. -/
theorem replaceAllAux_length_le (pat : Str) :
    ∀ (fuel : Nat) (s : Str), (replaceAllAux pat fuel s).length ≤ s.length := by
  intro fuel
  induction fuel with
  | zero => intro s; cases s <;> simp [replaceAllAux]
  | succ fuel ih =>
    intro s
    cases s with
    | nil => simp [replaceAllAux]
    | cons c rest =>
      simp only [replaceAllAux]
      split
      · calc (replaceAllAux pat fuel (List.drop (pat.length - 1) rest)).length
            ≤ (List.drop (pat.length - 1) rest).length := ih _
          _ ≤ rest.length := by simp [List.length_drop]
          _ ≤ (c :: rest).length := by simp
      · simpa using ih rest

/-- Removing a pattern that is a non-empty prefix of the input strictly
shortens it. -/
theorem replaceAll_length_lt (pat s : Str) (hne : pat ≠ [])
    (hpre : pat.isPrefixOf s = true) : (replaceAll pat s).length < s.length := by
  cases s with
  | nil =>
    cases pat with
    | nil => exact absurd rfl hne
    | cons p ps => simp [List.isPrefixOf] at hpre
  | cons c rest =>
    have hb : (!pat.isEmpty && pat.isPrefixOf (c :: rest)) = true := by
      simp [hpre, List.isEmpty_eq_false_iff_exists_mem]
      cases pat with
      | nil => exact absurd rfl hne
      | cons p ps => simp
    simp only [replaceAll, List.length_cons, replaceAllAux, hb, if_true]
    calc (replaceAllAux pat rest.length (List.drop (pat.length - 1) rest)).length
        ≤ (List.drop (pat.length - 1) rest).length := replaceAllAux_length_le pat _ _
      _ ≤ rest.length := by simp [List.length_drop]
      _ < rest.length + 1 := Nat.lt_succ_self _

/-- A successful child scan strictly shortens a non-empty input. -/
theorem cdScan_residual_lt (val sf : Str) (hval : val ≠ []) :
    ∀ (cs : List Node) (n2 : Node) (val2 : Str),
      cdScan val sf cs = .ok (n2, val2) → val2.length < val.length := by
  intro cs
  induction cs with
  | nil => intro n2 val2 h; simp [cdScan] at h
  | cons el rest ih =>
    intro n2 val2 h
    simp only [cdScan] at h
    split at h
    · simp only [Except.ok.injEq, Prod.mk.injEq] at h
      rw [← h.2]
      simpa using List.length_pos.mpr hval
    · split at h
      · simp only [Except.ok.injEq, Prod.mk.injEq] at h
        rw [← h.2]
        apply replaceAll_length_lt _ _ (by simp) (by assumption)
      · exact ih n2 val2 h

/-- A successful cd step strictly shortens a non-empty input. -/
theorem cd_residual_lt (n : Node) (val : Str) (n2 : Node) (val2 : Str)
    (hval : val ≠ []) (h : KubeObject.cd n val = .ok (n2, val2)) :
    val2.length < val.length := by
  simp only [KubeObject.cd] at h
  split at h
  · simp only [Except.ok.injEq, Prod.mk.injEq] at h
    rw [← h.2]
    simp only [List.length_drop]
    exact Nat.sub_lt (List.length_pos.mpr hval) Nat.one_pos
  · split at h
    · split at h <;>
      · simp only [Except.ok.injEq, Prod.mk.injEq] at h
        rw [← h.2]
        simpa using List.length_pos.mpr hval
    · split at h
      · split at h
        · exact absurd h (by simp)
        · simp only [Except.ok.injEq, Prod.mk.injEq] at h
          rw [← h.2]
          simp only [List.length_drop]
          exact Nat.sub_lt (List.length_pos.mpr hval) (by decide)
      · exact cdScan_residual_lt val _ hval _ n2 val2 h

/-- Appending one component to a non-empty join list joins it on the
right. -/
theorem osJoinList_concat (l : List Str) (x : Str) (h : l ≠ []) :
    osJoinList (l ++ [x]) = osJoin (osJoinList l) x := by
  cases l with
  | nil => exact absurd rfl h
  | cons f fs => simp [osJoinList, List.foldl_append]

/-- A run of the cd loop that ends in a node is a full resolution of
its input, provided the fuel covers the input length (each step
strictly shortens the residual). -/
theorem cdLoopAux_resolves :
    ∀ (fuel : Nat) (n : Node) (val : Str) (m : Node),
      val.length ≤ fuel → cdLoopAux fuel n val = .ok m → Resolves n val m := by
  intro fuel
  induction fuel with
  | zero =>
    intro n val m hlen h
    have hv : val = [] := List.length_eq_zero.mp (Nat.le_zero.mp hlen)
    subst hv
    simp only [cdLoopAux, Except.ok.injEq] at h
    rw [← h]
    exact Resolves.done n
  | succ fuel ih =>
    intro n val m hlen h
    cases val with
    | nil =>
      simp only [cdLoopAux, Except.ok.injEq] at h
      rw [← h]
      exact Resolves.done n
    | cons c cs =>
      simp only [cdLoopAux] at h
      cases hcd : KubeObject.cd n (c :: cs) with
      | error e => rw [hcd] at h; simp at h
      | ok pr =>
        obtain ⟨n2, val2⟩ := pr
        rw [hcd] at h
        have hlt : val2.length < (c :: cs).length :=
          cd_residual_lt n (c :: cs) n2 val2 (by simp) hcd
        have hlen2 : val2.length ≤ fuel := by
          simp only [List.length_cons] at hlt hlen
          omega
        exact Resolves.step n (c :: cs) n2 val2 m hcd (ih n2 val2 m hlen2 h)

/-- Scanning children on an input that matches no earlier child and
carries the fragment of a later child as a slash-terminated prefix
returns that child with the replace-all residual. -/
theorem cdScan_first (val sf : Str) :
    ∀ (pre post : List Node) (c : Node),
      (∀ c2 ∈ pre, val ≠ c2.self.path_fragment ∧
        ¬((c2.self.path_fragment ++ "/".data).isPrefixOf val = true)) →
      (c.self.path_fragment ++ "/".data).isPrefixOf val = true →
      cdScan val sf (pre ++ c :: post) =
        .ok (c, replaceAll (c.self.path_fragment ++ "/".data) val) := by
  intro pre
  induction pre with
  | nil =>
    intro post c _ hpre
    have hlen : (c.self.path_fragment ++ "/".data).length ≤ val.length :=
      (List.isPrefixOf_iff_prefix.mp hpre).length_le
    have hne : val ≠ c.self.path_fragment := by
      intro he
      rw [he] at hlen
      simp [List.length_append] at hlen
    simp only [List.nil_append, cdScan]
    rw [if_neg hne, if_pos hpre]
  | cons p ps ih =>
    intro post c hpre hc
    obtain ⟨h1, h2⟩ := hpre p (by simp)
    simp only [List.cons_append, cdScan]
    rw [if_neg h1, if_neg h2]
    exact ih post c (fun c2 hc2 => hpre c2 (by simp [hc2])) hc

/-- Claim C1, counterexample: at a node with a single child of fragment
a, the step cd of a/a/x returns that child with residual x, because
the source removes every occurrence of a/ from the input, whereas
stripping exactly the leading prefix a/ would leave a/x; so the
residual as claimed differs from the residual the code computes. -/
theorem C1_counterexample :
    c1Root.children = [c1Child] ∧
    c1Child.self.path_fragment = "a".data ∧
    ("a/".data).isPrefixOf "a/a/x".data = true ∧
    KubeObject.cd c1Root "a/a/x".data = .ok (c1Child, "x".data) ∧
    "x".data ≠ ("a/a/x".data).drop ("a/".data).length :=
  ⟨rfl, rfl, by decide, rfl, by decide⟩

/-- Claim C1 (amended): a single-step cd of a value that is not
absolute, not "..", does not start with "../", and carries the
fragment of a child, slash-terminated, as a prefix (that child being
the first one matching), returns that child paired with the input with
every non-overlapping occurrence of fragment ++ "/" removed, scanning
left to right (Python str.replace semantics), which coincides with
stripping the leading prefix exactly when fragment ++ "/" does not
occur again in the remainder. -/
theorem C1_theorem : ∀ (n : Node) (pre post : List Node) (c : Node) (val : Str),
    n.children = pre ++ c :: post →
    (∀ c2 ∈ pre, val ≠ c2.self.path_fragment ∧
      ¬((c2.self.path_fragment ++ "/".data).isPrefixOf val = true)) →
    (c.self.path_fragment ++ "/".data).isPrefixOf val = true →
    ¬(("/".data).isPrefixOf val = true) →
    val ≠ "..".data →
    ¬(("../".data).isPrefixOf val = true) →
    KubeObject.cd n val = .ok (c, replaceAll (c.self.path_fragment ++ "/".data) val) := by
  intro n pre post c val hch hpre hc h1 h2 h3
  simp only [KubeObject.cd]
  rw [if_neg h1, if_neg h2, if_neg h3, hch]
  exact cdScan_first val n.self.path_fragment pre post c hpre hc

/-- Claim C1, witness: the amended statement evaluated on the concrete
tree, with the path a/x resolving to the namespace a and residual
x. -/
theorem C1_witness :
    KubeObject.cd c1Root "a/x".data =
      .ok (c1Child, replaceAll (c1Child.self.path_fragment ++ "/".data) "a/x".data) :=
  C1_theorem c1Root [] [] c1Child "a/x".data rfl (by simp) (by decide) (by decide)
    (by decide) (by decide)

/-- Claim C2, counterexample: a Namespace whose first backend query
fails ends with its cache holding the empty list, not the absent
state, and the following access returns that empty list with zero
further backend queries instead of retrying. -/
theorem C2_counterexample :
    Namespace.children (.error "boom".data) (.ok []) none =
      (some [], .error "boom".data, 1) ∧
    (some ([] : List NsChild) ≠ (none : Option (List NsChild))) ∧
    Namespace.children (.ok ["p".data]) (.ok ["s".data]) (some []) =
      (some [], .ok [], 0) :=
  ⟨rfl, by decide, rfl⟩

/-- Claim C2 (amended): when the backend query issued by the first
access to the lazy children accessor fails, the children cache is left
populated with the partial list built before the failure (the empty
list when the first query failed, the pods alone when the Namespace
service query failed), the error propagates, and a subsequent access
returns that cached list with zero backend queries instead of
retrying. -/
theorem C2_theorem :
    (∀ (e : Str) (r2 : Except Str (List Str)),
      Namespace.children (.error e) r2 none = (some [], .error e, 1)) ∧
    (∀ (pods : List Str) (e : Str),
      Namespace.children (.ok pods) (.error e) none =
        (some (pods.map NsChild.pod), .error e, 2)) ∧
    (∀ (e : Str) (st : PodState), st.children = none →
      Pod.children (.error e) st =
        ({ children := some [], hostname := st.hostname }, .error e, 1)) ∧
    (∀ (e : Str), Cluster.children (.error e) none = (some [], .error e, 1)) ∧
    (∀ (r1 r2 : Except Str (List Str)) (cs : List NsChild),
      Namespace.children r1 r2 (some cs) = (some cs, .ok cs, 0)) ∧
    (∀ (r : Except Str PodQueryData) (st : PodState) (cs : List ContainerRec),
      st.children = some cs → Pod.children r st = (st, .ok cs, 0)) ∧
    (∀ (r : Except Str (List Str)) (cs : List Str),
      Cluster.children r (some cs) = (some cs, .ok cs, 0)) := by
  refine ⟨fun e r2 => rfl, fun pods e => rfl, ?_, fun e => rfl,
    fun r1 r2 cs => rfl, ?_, fun r cs => rfl⟩
  · intro e st h
    simp [Pod.children, Pod.gather_data, h]
  · intro r st cs h
    simp [Pod.children, h]

/-- Claim C2, witness: the amended statement evaluated on a Pod whose
query fails, and the subsequent cache hit issuing zero queries. -/
theorem C2_witness :
    Pod.children (.error "boom".data) { children := none, hostname := none } =
      ({ children := some [], hostname := none }, .error "boom".data, 1) ∧
    Pod.children (.ok podData0) { children := some [], hostname := none } =
      ({ children := some [], hostname := none }, .ok [], 0) :=
  ⟨C2_theorem.2.2.1 "boom".data ⟨none, none⟩ rfl,
   C2_theorem.2.2.2.2.2.1 (.ok podData0) ⟨some [], none⟩ [] rfl⟩

/-- Claim C3: on a non-empty path, the navigator cd either fails
leaving the whole state exactly as it was before the call, or succeeds
with the current pointer moved to a node reached by a chain of
single-step resolutions that consumes the entire path. -/
theorem C3_theorem : ∀ (sh : KubeCmd) (val : Str), val ≠ [] →
    (∃ e, KubeCmd.cd sh val = (sh, .error e)) ∨
    (∃ m, KubeCmd.cd sh val = (⟨m⟩, .ok ()) ∧ Resolves sh.current val m) := by
  intro sh val hval
  by_cases hk : sh.current.self.kind = .sentinel
  · left
    exact ⟨"Please select a cluster with \x27use\x27 first".data,
      by simp [KubeCmd.cd, hk]⟩
  · cases hloop : KubeCmd.cdLoop sh.current val with
    | error e =>
      left
      refine ⟨e, ?_⟩
      simp [KubeCmd.cd, hk, hval, hloop]
    | ok m =>
      right
      refine ⟨m, ?_, cdLoopAux_resolves val.length sh.current val m (le_refl _) hloop⟩
      simp [KubeCmd.cd, hk, hval, hloop]

/-- Claim C3, witness: the dichotomy evaluated at the concrete
navigator standing at the scenario root, for the path ns1. -/
theorem C3_witness :
    (∃ e, KubeCmd.cd demoSh "ns1".data = (demoSh, .error e)) ∨
    (∃ m, KubeCmd.cd demoSh "ns1".data = (⟨m⟩, .ok ()) ∧
      Resolves demoSh.current "ns1".data m) :=
  C3_theorem demoSh "ns1".data (by decide)

/-- Claim C4: the ceiling is 15 by default; every non-empty segment
other than ".." charges one query per candidate node; a charge that
pushes the counter beyond the ceiling makes the whole resolution
return the empty result; and concretely, with ceiling 1, a pattern
whose second segment fans out over the two namespaces of the scenario
returns the empty sequence. -/
theorem C4_theorem :
    MAX_QUERY_LENGTH = 15 ∧
    (∀ (sh : KubeCmd) (arg : Str),
      KubeCmd.ls sh arg = KubeCmd.lsWith MAX_QUERY_LENGTH sh arg) ∧
    (∀ (ptr : List Node) (part : Str), part ≠ [] → part ≠ "..".data →
      lsCost ptr part = ptr.length) ∧
    (∀ (limit : Nat) (ptr : List Node) (q : Nat) (part : Str) (rest : List Str),
      limit < q + lsCost ptr part → lsLoop limit ptr q (part :: rest) = []) ∧
    KubeCmd.lsWith 1 demoSh "/pod.x".data = .ok [] := by
  refine ⟨rfl, fun sh arg => rfl, ?_, ?_, rfl⟩
  · intro ptr part h1 h2
    simp [lsCost, h1, h2]
  · intro limit ptr q part rest h
    simp only [lsLoop]
    split <;> simp [h]

/-- Claim C4, witness: the counter charge and the abort evaluated at
concrete inputs (ceiling 0, one candidate, one segment). -/
theorem C4_witness :
    lsCost [demoRoot] "pod.x".data = 1 ∧
    lsLoop 0 [demoRoot] 0 ["pod.x".data] = [] :=
  ⟨C4_theorem.2.2.1 [demoRoot] "pod.x".data (by decide) (by decide),
   C4_theorem.2.2.2.1 0 [demoRoot] 0 "pod.x".data [] (by decide)⟩

/-- Claim C5: a children accessor whose cache is populated returns the
cached sequence unchanged with zero backend queries, for Pod,
Namespace and Cluster; and a successful first access stores exactly
the returned sequence, after which every access, whatever the backend
would answer, returns it with zero further queries. -/
theorem C5_theorem :
    (∀ (r : Except Str PodQueryData) (st : PodState) (cs : List ContainerRec),
      st.children = some cs → Pod.children r st = (st, .ok cs, 0)) ∧
    (∀ (d : PodQueryData) (st : PodState), st.children = none → ∃ cs,
      Pod.children (.ok d) st =
        ({ children := some cs, hostname := some d.nodeName }, .ok cs, 1) ∧
      ∀ (r2 : Except Str PodQueryData),
        Pod.children r2 { children := some cs, hostname := some d.nodeName } =
          ({ children := some cs, hostname := some d.nodeName }, .ok cs, 0)) ∧
    (∀ (r1 r2 : Except Str (List Str)) (cs : List NsChild),
      Namespace.children r1 r2 (some cs) = (some cs, .ok cs, 0)) ∧
    (∀ (pods svcs : List Str), ∃ cs,
      Namespace.children (.ok pods) (.ok svcs) none = (some cs, .ok cs, 2) ∧
      ∀ (r1 r2 : Except Str (List Str)),
        Namespace.children r1 r2 (some cs) = (some cs, .ok cs, 0)) ∧
    (∀ (r : Except Str (List Str)) (cs : List Str),
      Cluster.children r (some cs) = (some cs, .ok cs, 0)) ∧
    (∀ (names : List Str), ∃ cs,
      Cluster.children (.ok names) none = (some cs, .ok cs, 1) ∧
      ∀ (r : Except Str (List Str)),
        Cluster.children r (some cs) = (some cs, .ok cs, 0)) := by
  refine ⟨?_, ?_, fun r1 r2 cs => rfl, ?_, fun r cs => rfl, ?_⟩
  · intro r st cs h
    simp [Pod.children, h]
  · intro d st h
    refine ⟨d.containerStatuses.map
      (fun s => ⟨s.1, replaceAll "docker://".data s.2, d.nodeName⟩), ?_, fun r2 => rfl⟩
    simp [Pod.children, Pod.gather_data, h]
  · intro pods svcs
    exact ⟨pods.map NsChild.pod ++ svcs.map NsChild.service, rfl, fun r1 r2 => rfl⟩
  · intro names
    exact ⟨names, rfl, fun r => rfl⟩

/-- Claim C5, witness: the cache-hit law evaluated on a Pod holding a
cached empty list while the backend would fail: the cached value comes
back with zero queries. -/
theorem C5_witness :
    Pod.children (.error "x".data) { children := some [], hostname := some "h".data } =
      ({ children := some [], hostname := some "h".data }, .ok [], 0) :=
  C5_theorem.1 (.error "x".data) ⟨some [], some "h".data⟩ [] rfl

/-- Claim C6: at the root (no parent) cd of ".." returns the node
itself with empty residual while cd of "../" followed by a non-empty
rest raises the beyond-root navigation error; at any node with a
parent the two forms return the parent, with empty residual and with
the rest respectively. -/
theorem C6_theorem : ∀ (n p : Node) (rest : Str),
    (n.parent = none → KubeObject.cd n "..".data = .ok (n, [])) ∧
    (n.parent = none → rest ≠ [] →
      KubeObject.cd n ("../".data ++ rest) =
        .error "Could not change directory beyond root".data) ∧
    (n.parent = some p → KubeObject.cd n "..".data = .ok (p, [])) ∧
    (n.parent = some p → rest ≠ [] →
      KubeObject.cd n ("../".data ++ rest) = .ok (p, rest)) := by
  intro n p rest
  obtain ⟨s, anc⟩ := n
  refine ⟨?_, ?_, ?_, ?_⟩
  · intro h
    cases anc with
    | nil => rfl
    | cons a r => simp [Node.parent] at h
  · intro h _
    cases anc with
    | nil =>
      simp only [KubeObject.cd]
      rw [if_neg (by simp [List.isPrefixOf] :
            ¬((("/".data).isPrefixOf ("../".data ++ rest)) = true)),
          if_neg (by simp : ¬(("../".data ++ rest) = "..".data)),
          if_pos (by simp [List.isPrefixOf] :
            (("../".data).isPrefixOf ("../".data ++ rest)) = true)]
      rfl
    | cons a r => simp [Node.parent] at h
  · intro h
    cases anc with
    | nil => simp [Node.parent] at h
    | cons a r =>
      simp only [Node.parent, Option.some.injEq] at h
      rw [← h]
      rfl
  · intro h _
    cases anc with
    | nil => simp [Node.parent] at h
    | cons a r =>
      simp only [Node.parent, Option.some.injEq] at h
      rw [← h]
      simp only [KubeObject.cd]
      rw [if_neg (by simp [List.isPrefixOf] :
            ¬((("/".data).isPrefixOf ("../".data ++ rest)) = true)),
          if_neg (by simp : ¬(("../".data ++ rest) = "..".data)),
          if_pos (by simp [List.isPrefixOf] :
            (("../".data).isPrefixOf ("../".data ++ rest)) = true)]
      rfl

/-- Claim C6, witness: the four cases evaluated at the scenario root
and at the namespace below it. -/
theorem C6_witness :
    KubeObject.cd demoRoot "..".data = .ok (demoRoot, []) ∧
    KubeObject.cd demoRoot ("../".data ++ "x".data) =
      .error "Could not change directory beyond root".data ∧
    KubeObject.cd demoNs1 "..".data = .ok (demoRoot, []) ∧
    KubeObject.cd demoNs1 ("../".data ++ "x".data) = .ok (demoRoot, "x".data) :=
  ⟨(C6_theorem demoRoot demoRoot "x".data).1 rfl,
   (C6_theorem demoRoot demoRoot "x".data).2.1 rfl (by decide),
   (C6_theorem demoNs1 demoRoot "x".data).2.2.1 rfl,
   (C6_theorem demoNs1 demoRoot "x".data).2.2.2 rfl (by decide)⟩

/-- Claim C7: a node with a parent has the path of its parent joined
with its own fragment under the os.path.join step, and the root
cluster node has path "/". -/
theorem C7_theorem : ∀ (n p : Node),
    (n.parent = some p →
      KubeObject.path n = osJoin (KubeObject.path p) n.self.path_fragment) ∧
    (n.parent = none → n.self.kind = Kind.cluster →
      KubeObject.path n = "/".data) := by
  intro n p
  constructor
  · intro h
    obtain ⟨ps, pa⟩ := p
    have hanc : n.ancestors = ps :: pa := by
      unfold Node.parent at h
      cases han : n.ancestors with
      | nil => rw [han] at h; simp at h
      | cons a rest =>
        rw [han] at h
        simp only [Option.some.injEq, Node.mk.injEq] at h
        rw [h.1, h.2]
    simp only [KubeObject.path, hanc, List.map_cons, List.reverse_cons]
    rw [osJoinList_concat _ _ (by simp)]
  · intro h hk
    have hanc : n.ancestors = [] := by
      unfold Node.parent at h
      cases han : n.ancestors with
      | nil => rfl
      | cons a rest => rw [han] at h; simp at h
    simp only [KubeObject.path, hanc, List.map_cons, List.map_nil,
      List.reverse_cons, List.reverse_nil, List.nil_append]
    simp [osJoinList, KTree.path_fragment, hk]

/-- Claim C7, witness: the join law evaluated for the namespace below
the scenario root, and the root path itself. -/
theorem C7_witness :
    KubeObject.path demoNs1 = osJoin (KubeObject.path demoRoot) demoNs1.self.path_fragment ∧
    KubeObject.path demoRoot = "/".data :=
  ⟨(C7_theorem demoNs1 demoRoot).1 rfl, (C7_theorem demoRoot demoRoot).2 rfl rfl⟩

/-- Claim C8: is_deletable is false exactly for the cluster and
container kinds; delete on such a kind raises the not-deletable error
and issues no backend call; on every other kind it issues exactly the
privileged delete command, succeeds exactly when the call exits zero,
and on a non-zero exit raises an error that carries the captured
stderr text as a suffix. -/
theorem C8_theorem :
    (∀ (k : Kind), is_deletable k = false ↔ (k = Kind.cluster ∨ k = Kind.container)) ∧
    (∀ (k : Kind) (name path : Str) (run : CompletedProcess),
      is_deletable k = false →
      KubeObject.delete k name path run =
        (.error ("Objects of kind \x27".data ++ kindStr k ++
          "\x27 cannot be deleted".data), none)) ∧
    (∀ (k : Kind) (name path : Str) (run : CompletedProcess),
      is_deletable k = true →
      (KubeObject.delete k name path run).2 =
        some ("delete ".data ++ kindStr k ++ " ".data ++ name, true) ∧
      ((KubeObject.delete k name path run).1 = .ok () ↔ run.returncode = 0) ∧
      (run.returncode ≠ 0 →
        (KubeObject.delete k name path run).1 =
          .error ("Could not remove ".data ++ path ++ ": ".data ++ run.stderr) ∧
        List.IsSuffix run.stderr
          ("Could not remove ".data ++ path ++ ": ".data ++ run.stderr))) := by
  refine ⟨?_, ?_, ?_⟩
  · intro k; cases k <;> simp [is_deletable]
  · intro k name path run h
    simp [KubeObject.delete, h]
  · intro k name path run h
    refine ⟨?_, ?_, ?_⟩
    · by_cases hrc : run.returncode = 0 <;> simp [KubeObject.delete, h, hrc]
    · by_cases hrc : run.returncode = 0 <;> simp [KubeObject.delete, h, hrc]
    · intro hrc
      exact ⟨by simp [KubeObject.delete, h, hrc], ⟨_, rfl⟩⟩

/-- Claim C8, witness: the three parts evaluated for a container (no
call issued) and for a pod whose delete call fails with diagnostic
text. -/
theorem C8_witness :
    (is_deletable Kind.container = false ↔
      (Kind.container = Kind.cluster ∨ Kind.container = Kind.container)) ∧
    KubeObject.delete Kind.container "http".data "p".data ⟨0, []⟩ =
      (.error ("Objects of kind \x27".data ++ kindStr Kind.container ++
        "\x27 cannot be deleted".data), none) ∧
    ((KubeObject.delete Kind.pod "x".data "p".data ⟨1, "boom".data⟩).2 =
      some ("delete ".data ++ kindStr Kind.pod ++ " ".data ++ "x".data, true) ∧
    ((KubeObject.delete Kind.pod "x".data "p".data ⟨1, "boom".data⟩).1 = .ok () ↔
      (⟨1, "boom".data⟩ : CompletedProcess).returncode = 0) ∧
    ((⟨1, "boom".data⟩ : CompletedProcess).returncode ≠ 0 →
      (KubeObject.delete Kind.pod "x".data "p".data ⟨1, "boom".data⟩).1 =
        .error ("Could not remove ".data ++ "p".data ++ ": ".data ++ "boom".data) ∧
      List.IsSuffix "boom".data
        ("Could not remove ".data ++ "p".data ++ ": ".data ++ "boom".data))) :=
  ⟨C8_theorem.1 Kind.container,
   C8_theorem.2.1 Kind.container "http".data "p".data ⟨0, []⟩ rfl,
   C8_theorem.2.2 Kind.pod "x".data "p".data ⟨1, "boom".data⟩ rfl⟩

/-- Claim C9: a leading slash in an ls pattern is an empty first
segment, expanding to the children of the current node at zero query
cost and continuing from them, for every current node and ceiling; it
does not jump to the tree root, unlike the single-step cd, which on
the same input jumps to the root with the slash stripped. -/
theorem C9_theorem : ∀ (limit : Nat) (sh : KubeCmd) (p : Str),
    sh.current.self.kind ≠ .sentinel →
    KubeCmd.lsWith limit sh ('/' :: p) =
      .ok (if (sh.current.children).isEmpty = true then []
           else lsLoop limit sh.current.children 0 (splitOnChar '/' p)) ∧
    KubeObject.cd sh.current ('/' :: p) = .ok (sh.current.root, p) := by
  intro limit sh p hk
  constructor
  · have hsplit : splitOnChar '/' ('/' :: p) = [] :: splitOnChar '/' p := by
      simp [splitOnChar]
    have hseg : lsSegment [sh.current] ([] : Str) = sh.current.children := by
      simp [lsSegment]
    have hcost : lsCost [sh.current] ([] : Str) = 0 := by
      simp [lsCost]
    simp only [KubeCmd.lsWith, if_neg hk,
      if_neg (by simp : ¬('/' :: p = ([] : Str))), hsplit, lsLoop, hseg, hcost,
      Nat.add_zero]
    simp [Nat.not_lt_zero]
  · simp [KubeObject.cd, show ("/".data : Str) = ['/'] from rfl, List.isPrefixOf]

/-- Claim C9, witness: the leading-slash law evaluated at the scenario
root with the default ceiling. -/
theorem C9_witness :
    KubeCmd.lsWith 15 demoSh ('/' :: "pod.x".data) =
      .ok (if (demoSh.current.children).isEmpty = true then []
           else lsLoop 15 demoSh.current.children 0 (splitOnChar '/' "pod.x".data)) ∧
    KubeObject.cd demoSh.current ('/' :: "pod.x".data) =
      .ok (demoSh.current.root, "pod.x".data) :=
  C9_theorem 15 demoSh "pod.x".data (by decide)

/-- Claim C10: refresh on a container or service node returns the node
with every field (name, kind, cache, hostname, and the caches of the
whole subtree) unchanged, so the guaranteed refresh the rm command
performs in its cleanup has no effect when the current node is one of
those. -/
theorem C10_theorem : ∀ (t : MTree),
    t.kind = Kind.container ∨ t.kind = Kind.service →
    KubeObject.refresh t = .ok t ∧ do_rm_cleanup t = .ok t := by
  intro t ht
  obtain ⟨nm, k, cache, h⟩ := t
  cases ht with
  | inl hc =>
    simp only [MTree.kind] at hc
    subst hc
    exact ⟨rfl, rfl⟩
  | inr hs =>
    simp only [MTree.kind] at hs
    subst hs
    exact ⟨rfl, rfl⟩

/-- Claim C10, witness: refresh evaluated on a container with a
populated cache and on a service. -/
theorem C10_witness :
    (KubeObject.refresh (.node "http".data .container (some []) none) =
      .ok (.node "http".data .container (some []) none) ∧
     do_rm_cleanup (.node "http".data .container (some []) none) =
      .ok (.node "http".data .container (some []) none)) ∧
    (KubeObject.refresh (.node "svc".data .service none none) =
      .ok (.node "svc".data .service none none) ∧
     do_rm_cleanup (.node "svc".data .service none none) =
      .ok (.node "svc".data .service none none)) :=
  ⟨C10_theorem (.node "http".data .container (some []) none) (Or.inl rfl),
   C10_theorem (.node "svc".data .service none none) (Or.inr rfl)⟩
